import Mathlib

/-!
Shallow embedding of `data_processing.py`, a pipeline over Scottish
exam-archive tables.  Tables become lists of rows; pandas column
aggregations become list filter/map/sum operations; file reads become
`Option`-valued inputs (`none` models a read failure / absent file).
-/

/-! ## Data model -/

/-- Row of `doc_timeline.csv`: a year and its document count. -/
structure TimelineRow where
  year : Int
  count : Int
deriving DecidableEq, Repr

/-- Row of `merged_textinfo_by_subject_and_year.csv`. -/
structure MergedRow where
  subject : String
  year : Int
  count : Int
deriving DecidableEq, Repr

/-- One extracted quote, as written to `quotes.json`. -/
structure Quote where
  text : String
  topic : String
deriving DecidableEq, Repr

/-- The statistics record written to `statistics.json` by
`generate_statistics`. -/
structure Stats where
  total_years : Int
  total_documents : Int
  war_year_drop : Int
  english_dominance : Int
  gaelic_presence : Int
deriving DecidableEq, Repr

/-! ## Substring containment

Python's `needle in haystack` on strings is substring containment; we
model it on the underlying character lists. -/

/-- Whether `needle` occurs at the very start of `hay`. -/
def listStartsWith : List Char → List Char → Bool
  | [], _ => true
  | _ :: _, [] => false
  | a :: as, b :: bs => a = b && listStartsWith as bs

/-- Whether `needle` occurs somewhere inside `hay`
(Python's `needle in hay`, pandas `.str.contains` with a literal pattern). -/
def listHasSub (needle : List Char) : List Char → Bool
  | [] => listStartsWith needle []
  | c :: rest => listStartsWith needle (c :: rest) || listHasSub needle rest

theorem listStartsWith_iff (n h : List Char) :
    listStartsWith n h = true ↔ ∃ t, h = n ++ t := by
  induction n generalizing h with
  | nil => simp [listStartsWith]
  | cons a as ih =>
    cases h with
    | nil =>
      simp [listStartsWith]
    | cons b bs =>
      simp only [listStartsWith, Bool.and_eq_true, decide_eq_true_eq, ih bs,
        List.cons_append, List.cons.injEq]
      constructor
      · rintro ⟨rfl, t, rfl⟩; exact ⟨t, rfl, rfl⟩
      · rintro ⟨t, rfl, rfl⟩; exact ⟨rfl, t, rfl⟩

theorem listHasSub_iff (n h : List Char) :
    listHasSub n h = true ↔ ∃ pre post, h = pre ++ n ++ post := by
  induction h with
  | nil =>
    simp only [listHasSub, listStartsWith_iff]
    constructor
    · rintro ⟨t, ht⟩; exact ⟨[], t, by simpa using ht⟩
    · rintro ⟨pre, post, hp⟩
      rcases List.append_eq_nil.mp (List.append_eq_nil.mp hp.symm).1 with ⟨_, h2⟩
      exact ⟨[], by simp [h2]⟩
  | cons c rest ih =>
    simp only [listHasSub, Bool.or_eq_true, listStartsWith_iff, ih]
    constructor
    · rintro (⟨t, ht⟩ | ⟨pre, post, hp⟩)
      · exact ⟨[], t, by simpa using ht⟩
      · exact ⟨c :: pre, post, by simp [hp]⟩
    · rintro ⟨pre, post, hp⟩
      cases pre with
      | nil => exact Or.inl ⟨post, by simpa using hp⟩
      | cons p ps =>
        rw [List.cons_append, List.cons_append] at hp
        exact Or.inr ⟨ps, post, (List.cons.injEq _ _ _ _ ▸ hp).2⟩

/-! ## Quote extraction (`extract_quotes`)

The Python function reads `educationcomms.txt`; we model the read as an
`Option String` argument (`none` = any read failure, which the source
catches and answers with the hardcoded fallback).  A Python `str` is a
sequence of code points, so sentences are handled as `List Char`:
`len` is `List.length`, `in` is `listHasSub`, `.strip()` is `listTrim`. -/

/-- Python's `content.split('.')`: split on every period, keeping empty
pieces, so the result always has one more piece than there are periods. -/
def splitDot : List Char → List (List Char)
  | [] => [[]]
  | c :: rest =>
    if c = '.' then [] :: splitDot rest
    else
      match splitDot rest with
      | [] => [[c]]
      | piece :: pieces => (c :: piece) :: pieces

/-- Python's `str.strip()`: drop whitespace from both ends. -/
def listTrim (cs : List Char) : List Char :=
  ((cs.dropWhile Char.isWhitespace).reverse.dropWhile Char.isWhitespace).reverse

/-- The hardcoded one-element fallback list built in the `except` branch. -/
def fallback_quotes : List Quote :=
  [{ text := "Candidates for the Leaving Certificate must demonstrate proficiency in English.",
     topic := "English Requirement" }]

/-- One pass of the `for` loop over the pseudo-sentences, accumulator and
early `break` included, translated line by line from the source. -/
def extractLoop : List (List Char) → List Quote → List Quote
  | [], quotes => quotes
  | sentence :: rest, quotes =>
    if listHasSub "English".data sentence && listHasSub "certificate".data sentence
        && decide (sentence.length < 200) then
      if (listTrim sentence).length > 30 then
        let quotes2 := quotes ++ [{ text := String.mk (listTrim sentence ++ ['.']),
                                    topic := "English Requirement" }]
        if quotes2.length ≥ 3 then quotes2 else extractLoop rest quotes2
      else extractLoop rest quotes
    else extractLoop rest quotes

/-- The whole `extract_quotes` function.  `content.split('.')` becomes
`splitDot`, `sentences[:1000]` becomes `List.take 1000`, and the
`except` branch becomes the `none` case. -/
def extract_quotes : Option String → List Quote
  | none => fallback_quotes
  | some content => extractLoop ((splitDot content.data).take 1000) []

/-- The combined condition under which a pseudo-sentence is kept: both
literal substrings, raw length under 200, and trimmed length over 30. -/
def keepsSentence (s : List Char) : Bool :=
  (listHasSub "English".data s && listHasSub "certificate".data s
      && decide (s.length < 200))
    && decide ((listTrim s).length > 30)

/-- The quote built from a kept pseudo-sentence. -/
def mkQuote (s : List Char) : Quote :=
  { text := String.mk (listTrim s ++ ['.']), topic := "English Requirement" }

/-- Modelled from the spec claim (amended): the extractor as a
filter-take-map pipeline over the first 1000 pseudo-sentences, to be
compared with the loop the source writes. -/
def extractQuotesSpec (content : String) : List Quote :=
  ((((splitDot content.data).take 1000).filter keepsSentence).take 3).map mkQuote

theorem extractLoop_eq (ss : List (List Char)) :
    ∀ acc : List Quote, acc.length < 3 →
      extractLoop ss acc = acc ++ ((ss.filter keepsSentence).take (3 - acc.length)).map mkQuote := by
  induction ss with
  | nil => intro acc _; simp [extractLoop]
  | cons s rest ih =>
    intro acc hacc
    by_cases h1 : (listHasSub "English".data s && listHasSub "certificate".data s
        && decide (s.length < 200)) = true
    · by_cases h2 : (listTrim s).length > 30
      · have hk : keepsSentence s = true := by
          simp [keepsSentence, h1, h2]
        by_cases h3 : acc.length + 1 ≥ 3
        · have h2len : acc.length = 2 := by omega
          simp only [extractLoop, h1, if_true, h2, List.length_append,
            List.length_cons, List.length_nil]
          rw [if_pos (by simpa using h3)]
          simp [List.filter_cons, hk, h2len, List.take_succ_cons, mkQuote]
        · have hq : ({ text := String.mk (listTrim s ++ ['.']),
                       topic := "English Requirement" } : Quote) = mkQuote s := rfl
          have : (acc ++ [mkQuote s]).length < 3 := by
            simp only [List.length_append, List.length_cons, List.length_nil]
            omega
          simp only [extractLoop, h1, if_true, h2, hq]
          rw [if_neg (by simp only [List.length_append, List.length_cons,
            List.length_nil]; omega)]
          rw [ih _ this]
          have hsub : 3 - (acc ++ [mkQuote s]).length = (3 - acc.length) - 1 := by
            simp only [List.length_append, List.length_cons, List.length_nil]
            omega
          have hpos : ∃ k, 3 - acc.length = k + 1 := ⟨2 - acc.length, by omega⟩
          rcases hpos with ⟨k, hk3⟩
          rw [hsub, hk3]
          simp [List.filter_cons, hk, List.take_succ_cons, List.append_assoc,
            mkQuote]
      · have hk : keepsSentence s = false := by
          simp only [keepsSentence, h1, Bool.true_and, decide_eq_false_iff_not]
          omega
        simp only [extractLoop, h1, if_true, if_neg h2]
        rw [ih _ hacc]
        simp [List.filter_cons, hk]
    · have h1f : (listHasSub "English".data s && listHasSub "certificate".data s
          && decide (s.length < 200)) = false := Bool.eq_false_iff.mpr h1
      have hk : keepsSentence s = false := by
        simp [keepsSentence, h1f]
      simp only [extractLoop, if_neg h1]
      rw [ih _ hacc]
      simp [List.filter_cons, hk]

/-! ## Statistics (`generate_statistics`)

Pandas `Series.max` / `Series.min` give `NaN` on an empty column and the
subsequent `int(...)` raises, so the embedding returns `none` for an empty
timeline; `Series.between(1939, 1945)` is inclusive at both endpoints;
`Series.sum` over a filtered frame is a filter-map-sum. -/

/-- Maximum of a column, `none` when the column is empty. -/
def listMax : List Int → Option Int
  | [] => none
  | x :: xs =>
    match listMax xs with
    | none => some x
    | some m => some (max x m)

/-- Minimum of a column, `none` when the column is empty. -/
def listMin : List Int → Option Int
  | [] => none
  | x :: xs =>
    match listMin xs with
    | none => some x
    | some m => some (min x m)

/-- `doc_timeline['Document Count'].sum()`. -/
def sumCounts (rows : List TimelineRow) : Int :=
  (rows.map (fun r => r.count)).sum

/-- The `between(1939, 1945)` filter and sum from the `war_year_drop` line. -/
def warYearDrop (tl : List TimelineRow) : Int :=
  sumCounts (tl.filter (fun r => decide (1939 ≤ r.year) && decide (r.year ≤ 1945)))

/-- Sum over a merged-table selection. -/
def sumMergedCounts (rows : List MergedRow) : Int :=
  (rows.map (fun r => r.count)).sum

/-- The `merged_data[merged_data['Subject'] == 'ENGLISH']` selection and sum. -/
def englishDominance (md : List MergedRow) : Int :=
  sumMergedCounts (md.filter (fun r => decide (r.subject = "ENGLISH")))

/-- The `.str.contains('GAELIC', na=False)` selection and sum (the pattern
has no regex metacharacters, so it is a literal substring test). -/
def gaelicPresence (md : List MergedRow) : Int :=
  sumMergedCounts (md.filter (fun r => listHasSub "GAELIC".data r.subject.data))

/-- The whole `generate_statistics` function; `none` models the
`int(nan)` failure on an empty timeline. -/
def generate_statistics (tl : List TimelineRow) (md : List MergedRow) : Option Stats :=
  match listMax (tl.map (fun r => r.year)), listMin (tl.map (fun r => r.year)) with
  | some mx, some mn =>
      some { total_years := mx - mn,
             total_documents := sumCounts tl,
             war_year_drop := warYearDrop tl,
             english_dominance := englishDominance md,
             gaelic_presence := gaelicPresence md }
  | _, _ => none

/-! ## The pipeline driver (`main`)

`main` touches the file system, so it is embedded as a function of an
environment describing which inputs exist, returning which output files
get written, what error diagnostic (if any) is printed, and whether an
unhandled exception escapes. -/

/-- The file-system state `main` runs against: does the `data` directory
exist, and the contents of each data file (`none` = absent). -/
structure Env where
  dataDirExists : Bool
  docTimeline : Option (List TimelineRow)
  subjectNames : Option (List (String × String))
  mergedData : Option (List MergedRow)
  educationComms : Option String
deriving Repr

/-- `load_data`: reads the three CSVs; any missing one raises
`FileNotFoundError`, modelled as `none`. -/
def load_data (env : Env) :
    Option (List TimelineRow × List (String × String) × List MergedRow) :=
  match env.docTimeline, env.subjectNames, env.mergedData with
  | some t, some s, some m => some (t, s, m)
  | _, _, _ => none

/-- What a run of `main` produces. -/
structure MainResult where
  outputs : List String
  errorMessage : Option String
  crashed : Bool
deriving Repr

namespace Pipeline

/-- The `main` function: directory check, guarded load, then charts,
quotes and statistics in source order.  The charts and `quotes.json` are
written before `generate_statistics` runs, so a statistics crash (empty
timeline) still leaves the first four files.  (Namespaced because a
top-level `main` has a reserved signature in Lean.) -/
def main (env : Env) : MainResult :=
  if env.dataDirExists = false then
    { outputs := [],
      errorMessage := some "ERROR: Data directory not found",
      crashed := false }
  else
    match load_data env with
    | none =>
        { outputs := [],
          errorMessage := some "ERROR: missing data file",
          crashed := false }
    | some (tl, _subjectNames, md) =>
        match generate_statistics tl md with
        | some _ =>
            { outputs := ["timeline_chart.png", "language_subjects_chart.png",
                          "language_trends_chart.png", "quotes.json", "statistics.json"],
              errorMessage := none, crashed := false }
        | none =>
            { outputs := ["timeline_chart.png", "language_subjects_chart.png",
                          "language_trends_chart.png", "quotes.json"],
              errorMessage := none, crashed := true }

end Pipeline

/-! ## Sample data used by the witnesses -/

def sampleTimeline : List TimelineRow :=
  [{ year := 1888, count := 10 }, { year := 1939, count := 5 },
   { year := 1945, count := 0 }, { year := 1962, count := 7 }]

def sampleMerged : List MergedRow :=
  [{ subject := "ENGLISH", year := 1900, count := 12 },
   { subject := "GAELIC (LEARNERS)", year := 1950, count := 3 },
   { subject := "FRENCH", year := 1950, count := 4 }]

def sampleStats : Stats :=
  { total_years := 74, total_documents := 22, war_year_drop := 5,
    english_dominance := 12, gaelic_presence := 3 }

/-! ## Helper lemmas -/

theorem sum_map_filter_eq_sum_ite {α : Type} (l : List α) (p : α → Bool) (f : α → Int) :
    ((l.filter p).map f).sum = (l.map (fun a => if p a then f a else 0)).sum := by
  induction l with
  | nil => simp
  | cons a rest ih =>
    cases hpa : p a <;> simp [List.filter_cons, hpa, ih]

theorem sum_map_filter_le_sum {α : Type} (l : List α) (p : α → Bool) (f : α → Int)
    (hf : ∀ a ∈ l, 0 ≤ f a) :
    ((l.filter p).map f).sum ≤ (l.map f).sum := by
  induction l with
  | nil => simp
  | cons a rest ih =>
    have h0 : 0 ≤ f a := hf a (by simp)
    have ih' := ih (fun b hb => hf b (by simp [hb]))
    cases hpa : p a
    · simp only [List.filter_cons, hpa, Bool.false_eq_true, if_false,
        List.map_cons, List.sum_cons]
      linarith
    · simp only [List.filter_cons, hpa, if_true, List.map_cons, List.sum_cons]
      linarith

theorem listMax_perm {l l' : List Int} (h : l.Perm l') : listMax l = listMax l' := by
  induction h with
  | nil => rfl
  | cons x _ ih => simp [listMax, ih]
  | swap x y l =>
    cases hm : listMax l with
    | none => simp [listMax, hm, max_comm]
    | some m => simp [listMax, hm, max_left_comm]
  | trans _ _ ih1 ih2 => exact ih1.trans ih2

theorem listMin_perm {l l' : List Int} (h : l.Perm l') : listMin l = listMin l' := by
  induction h with
  | nil => rfl
  | cons x _ ih => simp [listMin, ih]
  | swap x y l =>
    cases hm : listMin l with
    | none => simp [listMin, hm, min_comm]
    | some m => simp [listMin, hm, min_left_comm]
  | trans _ _ ih1 ih2 => exact ih1.trans ih2

theorem generate_statistics_fields (tl : List TimelineRow) (md : List MergedRow)
    (stats : Stats) (h : generate_statistics tl md = some stats) :
    stats.total_documents = sumCounts tl ∧
    stats.war_year_drop = warYearDrop tl ∧
    stats.english_dominance = englishDominance md ∧
    stats.gaelic_presence = gaelicPresence md := by
  unfold generate_statistics at h
  cases hmx : listMax (tl.map (fun r => r.year)) with
  | none => rw [hmx] at h; simp at h
  | some mx =>
    cases hmn : listMin (tl.map (fun r => r.year)) with
    | none => rw [hmx, hmn] at h; simp at h
    | some mn =>
      rw [hmx, hmn] at h
      simp only [Option.some.injEq] at h
      subst h
      exact ⟨rfl, rfl, rfl, rfl⟩

/-! ## Claim theorems: statistics -/

/-- C2: for every timeline table whose Year column has minimum 1888 and
maximum 1962, the emitted statistic `total_years` equals 74, i.e.
`generate_statistics` computes `total_years` as `max(Year) - min(Year)`. -/
theorem total_years_of_min_max (tl : List TimelineRow) (md : List MergedRow)
    (stats : Stats)
    (hmax : listMax (tl.map (fun r => r.year)) = some 1962)
    (hmin : listMin (tl.map (fun r => r.year)) = some 1888)
    (h : generate_statistics tl md = some stats) :
    stats.total_years = 74 := by
  unfold generate_statistics at h
  rw [hmax, hmin] at h
  simp only [Option.some.injEq] at h
  subst h
  show (1962 - 1888 : Int) = 74
  decide

/-- Witness for C2 at the sample timeline (years 1888..1962). -/
theorem total_years_of_min_max_witness : sampleStats.total_years = 74 :=
  total_years_of_min_max sampleTimeline sampleMerged sampleStats
    (by decide) (by decide) (by decide)

/-- C3: the emitted statistic `war_year_drop` equals the sum of
Document Count over exactly the rows whose Year lies in 1939..1945,
both endpoints inclusive. -/
theorem war_year_drop_is_war_sum (tl : List TimelineRow) (md : List MergedRow)
    (stats : Stats) (h : generate_statistics tl md = some stats) :
    stats.war_year_drop =
      (tl.map (fun r => if 1939 ≤ r.year ∧ r.year ≤ 1945 then r.count else 0)).sum := by
  obtain ⟨-, hw, -, -⟩ := generate_statistics_fields tl md stats h
  rw [hw]
  unfold warYearDrop sumCounts
  rw [sum_map_filter_eq_sum_ite]
  have hfun : (fun r : TimelineRow =>
      if (decide (1939 ≤ r.year) && decide (r.year ≤ 1945)) = true then r.count else 0)
      = fun r : TimelineRow => if 1939 ≤ r.year ∧ r.year ≤ 1945 then r.count else 0 := by
    funext r
    by_cases hy : 1939 ≤ r.year ∧ r.year ≤ 1945
    · simp [hy, hy.1, hy.2]
    · rw [if_neg hy]
      rcases not_and_or.mp hy with h1 | h1 <;> simp [h1]
  rw [hfun]

/-- Witness for C3 at the sample tables. -/
theorem war_year_drop_is_war_sum_witness :
    sampleStats.war_year_drop =
      (sampleTimeline.map (fun r => if 1939 ≤ r.year ∧ r.year ≤ 1945 then r.count else 0)).sum :=
  war_year_drop_is_war_sum sampleTimeline sampleMerged sampleStats (by decide)

/-- C4: the emitted statistic `english_dominance` equals the sum of
Document Count over exactly the rows whose Subject equals "ENGLISH". -/
theorem english_dominance_is_english_sum (tl : List TimelineRow) (md : List MergedRow)
    (stats : Stats) (h : generate_statistics tl md = some stats) :
    stats.english_dominance =
      (md.map (fun r => if r.subject = "ENGLISH" then r.count else 0)).sum := by
  obtain ⟨-, -, he, -⟩ := generate_statistics_fields tl md stats h
  rw [he]
  unfold englishDominance sumMergedCounts
  rw [sum_map_filter_eq_sum_ite]
  have hfun : (fun r : MergedRow =>
      if (decide (r.subject = "ENGLISH")) = true then r.count else 0)
      = fun r : MergedRow => if r.subject = "ENGLISH" then r.count else 0 := by
    funext r
    by_cases hs : r.subject = "ENGLISH"
    · simp [hs]
    · simp [hs]
  rw [hfun]

/-- Witness for C4 at the sample tables. -/
theorem english_dominance_is_english_sum_witness :
    sampleStats.english_dominance =
      (sampleMerged.map (fun r => if r.subject = "ENGLISH" then r.count else 0)).sum :=
  english_dominance_is_english_sum sampleTimeline sampleMerged sampleStats (by decide)

/-- C10: when every timeline Document Count is non-negative, the emitted
`war_year_drop` is at most the emitted `total_documents`, since the war
rows are a subset of all timeline rows. -/
theorem war_year_drop_le_total_documents (tl : List TimelineRow) (md : List MergedRow)
    (stats : Stats) (hpos : ∀ r ∈ tl, 0 ≤ r.count)
    (h : generate_statistics tl md = some stats) :
    stats.war_year_drop ≤ stats.total_documents := by
  obtain ⟨ht, hw, -, -⟩ := generate_statistics_fields tl md stats h
  rw [ht, hw]
  unfold warYearDrop sumCounts
  exact sum_map_filter_le_sum tl _ _ hpos

/-- Witness for C10 at the sample tables. -/
theorem war_year_drop_le_total_documents_witness :
    sampleStats.war_year_drop ≤ sampleStats.total_documents :=
  war_year_drop_le_total_documents sampleTimeline sampleMerged sampleStats
    (by decide) (by decide)

open Classical in
/-- C5: every merged row whose Subject contains the substring "GAELIC"
(case-sensitively) contributes its Document Count to the emitted
`gaelic_presence`, and no row without that substring contributes: the
statistic is the sum over all rows of the count when the subject
decomposes around "GAELIC" and of zero otherwise. -/
theorem gaelic_presence_is_gaelic_sum (tl : List TimelineRow) (md : List MergedRow)
    (stats : Stats) (h : generate_statistics tl md = some stats) :
    stats.gaelic_presence =
      (md.map (fun r =>
        if ∃ pre post, r.subject.data = pre ++ "GAELIC".data ++ post then r.count
        else 0)).sum := by
  obtain ⟨-, -, -, hg⟩ := generate_statistics_fields tl md stats h
  rw [hg]
  unfold gaelicPresence sumMergedCounts
  rw [sum_map_filter_eq_sum_ite]
  have hfun : (fun r : MergedRow =>
      if (listHasSub "GAELIC".data r.subject.data) = true then r.count else 0)
      = fun r : MergedRow =>
        if ∃ pre post, r.subject.data = pre ++ "GAELIC".data ++ post then r.count
        else 0 := by
    funext r
    by_cases hs : listHasSub "GAELIC".data r.subject.data = true
    · rw [if_pos hs, if_pos ((listHasSub_iff _ _).mp hs)]
    · rw [if_neg hs, if_neg (fun hx => hs ((listHasSub_iff _ _).mpr hx))]
  rw [hfun]

open Classical in
/-- Witness for C5 at the sample tables, whose Gaelic row is
"GAELIC (LEARNERS)". -/
theorem gaelic_presence_is_gaelic_sum_witness :
    sampleStats.gaelic_presence =
      (sampleMerged.map (fun r =>
        if ∃ pre post, r.subject.data = pre ++ "GAELIC".data ++ post then r.count
        else 0)).sum :=
  gaelic_presence_is_gaelic_sum sampleTimeline sampleMerged sampleStats (by decide)

/-- C8: the statistics record is invariant under permuting the rows of the
timeline table and of the merged table. -/
theorem generate_statistics_perm_invariant (tl tl' : List TimelineRow)
    (md md' : List MergedRow) (h1 : tl.Perm tl') (h2 : md.Perm md') :
    generate_statistics tl md = generate_statistics tl' md' := by
  have hmax : listMax (tl.map (fun r => r.year)) = listMax (tl'.map (fun r => r.year)) :=
    listMax_perm (h1.map _)
  have hmin : listMin (tl.map (fun r => r.year)) = listMin (tl'.map (fun r => r.year)) :=
    listMin_perm (h1.map _)
  have hsum : sumCounts tl = sumCounts tl' := ((h1.map _)).sum_eq
  have hwar : warYearDrop tl = warYearDrop tl' := (((h1.filter _)).map _).sum_eq
  have heng : englishDominance md = englishDominance md' := (((h2.filter _)).map _).sum_eq
  have hgae : gaelicPresence md = gaelicPresence md' := (((h2.filter _)).map _).sum_eq
  unfold generate_statistics
  rw [hmax, hmin, hsum, hwar, heng, hgae]

def sampleTimelineShuffled : List TimelineRow :=
  [{ year := 1939, count := 5 }, { year := 1888, count := 10 },
   { year := 1945, count := 0 }, { year := 1962, count := 7 }]

def sampleMergedShuffled : List MergedRow :=
  [{ subject := "GAELIC (LEARNERS)", year := 1950, count := 3 },
   { subject := "ENGLISH", year := 1900, count := 12 },
   { subject := "FRENCH", year := 1950, count := 4 }]

/-- Witness for C8: swapping the first two rows of each sample table
leaves the statistics unchanged. -/
theorem generate_statistics_perm_invariant_witness :
    generate_statistics sampleTimeline sampleMerged
      = generate_statistics sampleTimelineShuffled sampleMergedShuffled :=
  generate_statistics_perm_invariant sampleTimeline sampleTimelineShuffled
    sampleMerged sampleMergedShuffled
    (by unfold sampleTimeline sampleTimelineShuffled; exact List.Perm.swap _ _ _)
    (by unfold sampleMerged sampleMergedShuffled; exact List.Perm.swap _ _ _)

/-- C7: for both recognized failure kinds (missing data directory, or any
of the three loaded data files missing) `main` prints a diagnostic and
returns early: no output file is produced and no unhandled error escapes. -/
theorem main_early_return (env : Env)
    (h : env.dataDirExists = false ∨ env.docTimeline = none ∨
         env.subjectNames = none ∨ env.mergedData = none) :
    (Pipeline.main env).outputs = [] ∧
    (Pipeline.main env).errorMessage ≠ none ∧
    (Pipeline.main env).crashed = false := by
  obtain ⟨dd, dt, sn, md, ec⟩ := env
  simp only [Env.dataDirExists, Env.docTimeline, Env.subjectNames, Env.mergedData] at h
  cases dd <;> cases dt <;> cases sn <;> cases md <;>
    simp_all [Pipeline.main, load_data]

/-- Witness for C7: a run against a missing data directory. -/
theorem main_early_return_witness :
    (Pipeline.main { dataDirExists := false, docTimeline := none,
                     subjectNames := none, mergedData := none,
                     educationComms := none }).outputs = [] ∧
    (Pipeline.main { dataDirExists := false, docTimeline := none,
                     subjectNames := none, mergedData := none,
                     educationComms := none }).errorMessage ≠ none ∧
    (Pipeline.main { dataDirExists := false, docTimeline := none,
                     subjectNames := none, mergedData := none,
                     educationComms := none }).crashed = false :=
  main_early_return _ (Or.inl rfl)

/-! ## Claim theorems: quote extraction -/

/-- C6 counterexample: the pseudo-sentence "The English certificate here"
contains both literal substrings and is shorter than 200 characters, yet
the extractor returns no quote for it (its trimmed length is not over
30), refuting the claim that the kept quotes are exactly the
pseudo-sentences with both substrings and length under 200. -/
theorem quote_filter_counterexample :
    extract_quotes (some "The English certificate here.") = [] ∧
    splitDot "The English certificate here.".data
      = ["The English certificate here".data, []] ∧
    listHasSub "English".data "The English certificate here".data = true ∧
    listHasSub "certificate".data "The English certificate here".data = true ∧
    "The English certificate here".data.length < 200 := by
  decide

/-- C6 (amended): the extractor splits the text on the period character,
examines only the first 1000 pseudo-sentences, keeps exactly those
containing both literal substrings, shorter than 200 characters, and
whose whitespace-trimmed form is longer than 30 characters, stops after
at most 3 kept quotes, and each kept quote's text is the trimmed
pseudo-sentence with a period re-appended. -/
theorem extract_quotes_eq_spec (content : String) :
    extract_quotes (some content) = extractQuotesSpec content := by
  rw [show extract_quotes (some content)
        = extractLoop ((splitDot content.data).take 1000) [] from rfl,
    extractLoop_eq _ [] (by simp)]
  simp [extractQuotesSpec]

/-- C1 counterexample: the empty corpus has zero qualifying sentences,
yet `extract_quotes` returns the empty list, not the one-element
fallback list the claim promises. -/
theorem zero_qualifying_counterexample :
    ((splitDot "".data).take 1000).filter keepsSentence = [] ∧
    extract_quotes (some "") = [] ∧
    extract_quotes (some "") ≠ fallback_quotes := by
  decide

/-- C1 (amended): on a text with exactly two qualifying sentences the
extractor returns exactly two quote entries, and on a file-read failure
it returns the one-element hardcoded fallback list; but on a corpus with
zero qualifying sentences it returns the empty list, not the fallback. -/
theorem extract_quotes_counts (content : String) :
    ((((splitDot content.data).take 1000).filter keepsSentence).length = 2 →
      (extract_quotes (some content)).length = 2) ∧
    ((((splitDot content.data).take 1000).filter keepsSentence).length = 0 →
      extract_quotes (some content) = []) ∧
    (extract_quotes none = fallback_quotes ∧ fallback_quotes.length = 1) := by
  have hrun : extract_quotes (some content)
      = ((((splitDot content.data).take 1000).filter keepsSentence).take 3).map mkQuote := by
    rw [show extract_quotes (some content)
          = extractLoop ((splitDot content.data).take 1000) [] from rfl,
      extractLoop_eq _ [] (by simp)]
    simp
  refine ⟨?_, ?_, rfl, rfl⟩
  · intro h2
    rw [hrun]
    simp [List.length_take, h2]
  · intro h0
    rw [hrun, List.length_eq_zero.mp h0]
    simp

/-- A corpus whose first two pseudo-sentences qualify. -/
def sampleCorpus : String :=
  "Students of English must hold a good certificate of merit. The English certificate standard remains high for all. Nothing here."

/-- Witness for C1 at a corpus with exactly two qualifying sentences. -/
theorem extract_quotes_counts_witness :
    (extract_quotes (some sampleCorpus)).length = 2 :=
  (extract_quotes_counts sampleCorpus).1 (by decide)

/-- C9: every quote produced on the successful path has as text some
trimmed pseudo-sentence of strictly more than 30 characters with a
period appended; consequently no trimmed sentence of 30 or fewer
characters is the body of any returned quote. -/
theorem quote_text_shape (content : String) (q : Quote)
    (hq : q ∈ extract_quotes (some content)) :
    (∃ body : List Char, q.text = String.mk (body ++ ['.']) ∧ 30 < body.length) ∧
    (∀ s : List Char, (listTrim s).length ≤ 30 →
      q.text ≠ String.mk (listTrim s ++ ['.'])) := by
  have hrun : extract_quotes (some content)
      = ((((splitDot content.data).take 1000).filter keepsSentence).take 3).map mkQuote := by
    rw [show extract_quotes (some content)
          = extractLoop ((splitDot content.data).take 1000) [] from rfl,
      extractLoop_eq _ [] (by simp)]
    simp
  rw [hrun] at hq
  obtain ⟨s, hs, hmk⟩ := List.mem_map.mp hq
  have hsf : s ∈ ((splitDot content.data).take 1000).filter keepsSentence :=
    List.mem_of_mem_take hs
  have hks : keepsSentence s = true := (List.mem_filter.mp hsf).2
  have h30 : 30 < (listTrim s).length := by
    have hparts := (Bool.and_eq_true _ _).mp hks
    simpa using hparts.2
  have hqt : q.text = String.mk (listTrim s ++ ['.']) := by rw [← hmk]; rfl
  constructor
  · exact ⟨listTrim s, hqt, h30⟩
  · intro t ht heq
    rw [hqt] at heq
    have hdata : listTrim s ++ ['.'] = listTrim t ++ ['.'] := by
      injection heq
    have hlen := congrArg List.length hdata
    simp only [List.length_append, List.length_cons, List.length_nil] at hlen
    omega

/-- Witness for C9 at the sample corpus and its first extracted quote. -/
theorem quote_text_shape_witness :
    (∃ body : List Char,
        (Quote.mk "Students of English must hold a good certificate of merit."
            "English Requirement").text
          = String.mk (body ++ ['.']) ∧ 30 < body.length) ∧
    (∀ s : List Char, (listTrim s).length ≤ 30 →
        (Quote.mk "Students of English must hold a good certificate of merit."
            "English Requirement").text
          ≠ String.mk (listTrim s ++ ['.'])) :=
  quote_text_shape sampleCorpus _ (by decide)
